import Mathlib

set_option maxRecDepth 8192

/-!
Verification development for the Unity-Skills repository.

The embedding below translates the two Python modules that carry the
harness logic:

* `test_all_skills.py` — parameter synthesis (`SAFE_PARAMS`,
  `generate_test_params`), per-operation invocation and verdict
  classification (`test_skill`), and the report produced by `main`
  (sorting, summary counts, table rendering on stdout and into the
  persisted markdown file).
* `unity-skills/scripts/unity_skills.py` — registry resolution
  (`_find_port_by_target`), client construction (`UnitySkills.__init__`)
  and the exception handling of `UnitySkills.call`.

Python values that can appear in JSON bodies and synthesized parameter
objects are modelled by `PyVal`; machine-level details (sockets, threads)
are abstracted into an explicit per-operation transport result.
-/

/-- Model of the Python values the harness manipulates: JSON-decoded
response bodies and synthesized parameter values.  `float0` stands for the
literal `0.0`, the only floating-point value the source ever constructs;
`none` stands for Python `None` (also the decoding of JSON `null`). -/
inductive PyVal : Type where
  | str (s : String)
  | int (n : Int)
  | float0
  | bool (b : Bool)
  | none
  | list (xs : List PyVal)
  | dict (fields : List (String × PyVal))

/-- Membership of `sub` as a leading block of `l` (chars compared one by
one), the base step of the substring test used for Python `in`. -/
def charsStart : List Char → List Char → Bool
  | [], _ => true
  | _ :: _, [] => false
  | a :: as, b :: bs => a == b && charsStart as bs

/-- Substring test on character lists: `sub` occurs contiguously in `l`. -/
def charsSub (sub : List Char) : List Char → Bool
  | [] => charsStart sub []
  | b :: bs => charsStart sub (b :: bs) || charsSub sub bs

/-- Python `sub in s` on strings: contiguous substring containment. -/
def strIn (sub s : String) : Bool := charsSub sub.data s.data

/-- Python `s.lower()`, written over the character list so that it
evaluates by reduction. -/
def strLower (s : String) : String := String.mk (s.data.map Char.toLower)

mutual

/-- Python `repr` restricted to the values of `PyVal` (strings are assumed
not to need escaping, which holds for every string the harness produces):
strings are quoted with single quotes, booleans capitalize, `None` prints
literally, lists and dicts print their elements with `repr`. -/
def pyRepr : PyVal → String
  | .str s => "\x27" ++ s ++ "\x27"
  | .int n => toString n
  | .float0 => "0.0"
  | .bool b => if b then "True" else "False"
  | .none => "None"
  | .list xs => "[" ++ String.intercalate ", " (pyReprList xs) ++ "]"
  | .dict fs => "\x7b" ++ String.intercalate ", " (pyReprFields fs) ++ "\x7d"

/-- Elementwise `repr` of a list of values. -/
def pyReprList : List PyVal → List String
  | [] => []
  | x :: xs => pyRepr x :: pyReprList xs

/-- Elementwise `'key': repr(value)` rendering of dict fields. -/
def pyReprFields : List (String × PyVal) → List String
  | [] => []
  | (k, v) :: fs => ("\x27" ++ k ++ "\x27: " ++ pyRepr v) :: pyReprFields fs

end

/-- Python `str` on `PyVal`: identity on strings, `repr` otherwise. -/
def pyStr : PyVal → String
  | .str s => s
  | v => pyRepr v

/-- Python `v == False` for JSON-decoded values: `False == False` and
`0 == False` hold (and `0.0 == False`), everything else compares unequal
to `False`. -/
def pyEqFalse : PyVal → Bool
  | .bool b => !b
  | .int n => n == 0
  | .float0 => true
  | _ => false

/-- The `SAFE_PARAMS` table of `test_all_skills.py`: fixed, side-effect
free parameter objects for the known state-mutating operations, keyed by
operation name. -/
def SAFE_PARAMS : List (String × List (String × PyVal)) :=
  [ ("asset_delete", [("assetPath", .str "Assets/__nonexistent_test_file__.txt")])
  , ("asset_delete_batch", [("items", .str "[]")])
  , ("asset_move", [("sourcePath", .str "Assets/__nonexistent__.txt"),
      ("destinationPath", .str "Assets/__nonexistent2__.txt")])
  , ("asset_move_batch", [("items", .str "[]")])
  , ("asset_duplicate", [("assetPath", .str "Assets/__nonexistent_test_file__.txt")])
  , ("asset_import", [("sourcePath", .str "C:/__nonexistent__.txt"),
      ("destinationPath", .str "Assets/__test__.txt")])
  , ("asset_import_batch", [("items", .str "[]")])
  , ("cleaner_delete_assets", [("paths", .list [])])
  , ("script_delete", [("scriptPath", .str "Assets/__nonexistent__.cs")])
  , ("shader_delete", [("shaderPath", .str "Assets/__nonexistent__.shader")])
  , ("gameobject_delete", [("name", .str "__NonExistentObject__")])
  , ("gameobject_delete_batch", [("items", .str "[]")])
  , ("prefab_unpack", [("name", .str "__NonExistentPrefab__")])
  ]

/-- One parameter descriptor from a skill's declared schema, the fields
`generate_test_params` reads from each `p`: `p['name']`, `p['type']`,
`p.get('defaultValue')` (with `PyVal.none` covering both an absent key and
a JSON `null`), `p.get('required', False)`. -/
structure ParamDesc where
  name : String
  type : String
  defaultValue : PyVal
  required : Bool

/-- One skill's catalog entry as consumed by the synthesizer:
`skill_info.get('parameters', [])`. -/
structure SkillInfo where
  parameters : List ParamDesc

/-- Python `params[name] = v` on an insertion-ordered dict modelled as an
association list: overwrite in place when the key exists, append
otherwise. -/
def dictSet (d : List (String × PyVal)) (k : String) (v : PyVal) :
    List (String × PyVal) :=
  if d.any (fun p => p.1 == k) then
    d.map (fun p => if p.1 == k then (k, v) else p)
  else d ++ [(k, v)]

/-- The guard `default is not None and default != 'null'` of
`generate_test_params`: a default is usable unless it is `None` or the
string sentinel `"null"`. -/
def usableDefault : PyVal → Bool
  | PyVal.none => false
  | PyVal.str s => s != "null"
  | _ => true

/-- The ordered name-substring heuristics for a required `string`
parameter in `generate_test_params` (all matching against the lowercased
parameter name). -/
def stringHeuristic (name : String) : String :=
  let lower := strLower name
  if strIn "assetpath" lower then "Assets/__nonexistent_test__.asset"
  else if strIn "path" lower || strIn "folder" lower then "Assets"
  else if strIn "name" lower then "TestObject"
  else if strIn "items" lower then "[]"
  else if strIn "filter" lower || strIn "search" lower then "*"
  else "test"

/-- The value one iteration of the `generate_test_params` loop assigns to
`params[p.name]`, or `none` when that iteration assigns nothing (unusable
default and either not required or a type outside the six handled ones). -/
def synthVal : ParamDesc → Option PyVal :=
  fun p =>
    if usableDefault p.defaultValue then some p.defaultValue
    else if p.required then
      if p.type == "string" then some (.str (stringHeuristic p.name))
      else if p.type == "integer" then some (.int 0)
      else if p.type == "number" then some .float0
      else if p.type == "boolean" then some (.bool false)
      else if p.type == "array" then some (.list [])
      else if p.type == "object" then some (.dict [])
      else Option.none
    else Option.none

/-- One iteration of the `for p in skill_info.get('parameters', [])` loop:
perform the assignment `params[p.name] = v` exactly when the iteration's
branch assigns the value `v`. -/
def paramStep (params : List (String × PyVal)) (p : ParamDesc) :
    List (String × PyVal) :=
  match synthVal p with
  | some v => dictSet params p.name v
  | Option.none => params

/-- `generate_test_params` of `test_all_skills.py`: the `SAFE_PARAMS`
override is returned whole when the operation name is a key of the table,
otherwise the parameter object is built by folding the per-parameter loop
over the declared schema. -/
def generate_test_params (skill_name : String) (skill_info : SkillInfo) :
    List (String × PyVal) :=
  match List.lookup skill_name SAFE_PARAMS with
  | some ps => ps
  | Option.none => skill_info.parameters.foldl paramStep []

/-- The exceptions `requests.post` can raise, each carrying `str(e)`.  In
the `requests` library a connect timeout is a subclass of both
`ConnectionError` and `Timeout`, a read timeout only of `Timeout`; plain
connection errors and all remaining exceptions are the other two cases. -/
inductive ReqExn : Type where
  | connectError (msg : String)
  | connectTimeoutErr (msg : String)
  | readTimeoutErr (msg : String)
  | otherExn (msg : String)

/-- Whether the exception is caught by `except requests.exceptions.Timeout`. -/
def isTimeout : ReqExn → Bool
  | .connectTimeoutErr _ => true
  | .readTimeoutErr _ => true
  | _ => false

/-- Whether the exception is caught by
`except requests.exceptions.ConnectionError`. -/
def isConnErr : ReqExn → Bool
  | .connectError _ => true
  | .connectTimeoutErr _ => true
  | _ => false

/-- Python `str(e)` for a transport exception. -/
def reqExnMsg : ReqExn → String
  | .connectError m => m
  | .connectTimeoutErr m => m
  | .readTimeoutErr m => m
  | .otherExn m => m

/-- Outcome of one `requests.post` plus `resp.json()` pair: either the
post raised, or a response arrived with a status code and a body whose
JSON decoding either succeeded (an object, modelled as an association
list) or raised a decode error carrying `str(e)`. -/
inductive HttpResult : Type where
  | raised (e : ReqExn)
  | response (status : Nat) (body : Except String (List (String × PyVal)))

/-- Python `key in data` on a JSON object. -/
def dictContains (d : List (String × PyVal)) (k : String) : Bool :=
  d.any (fun p => p.1 == k)

/-- Python `data.get(key, fallback)` on a JSON object. -/
def dictGetD (d : List (String × PyVal)) (k : String) (fallback : PyVal) : PyVal :=
  (List.lookup k d).getD fallback

/-- Python type name of a value, used in `TypeError` diagnostics. -/
def pyTypeName : PyVal → String
  | .str _ => "str"
  | .int _ => "int"
  | .float0 => "float"
  | .bool _ => "bool"
  | .none => "NoneType"
  | .list _ => "list"
  | .dict _ => "dict"

/-- Python `v[:n]`: defined on strings and lists, raising `TypeError`
(carried in the `Except` error) on every other value. -/
def pySlice (n : Nat) : PyVal → Except String PyVal
  | .str s => .ok (.str (s.take n))
  | .list xs => .ok (.list (xs.take n))
  | v => .error ("TypeError: \x27" ++ pyTypeName v ++ "\x27 object is not subscriptable")

/-- The check `'success' in data and data['success'] == False`. -/
def successIsFalse (data : List (String × PyVal)) : Bool :=
  match List.lookup "success" data with
  | some v => pyEqFalse v
  | Option.none => false

/-- Verdict strings of `test_skill`, exactly as they appear in the source. -/
def passMark : String := "✅ PASS"

/-- Verdict string for the soft-error outcome. -/
def warnMark : String := "⚠️ WARN"

/-- Verdict string for a non-200 HTTP response. -/
def failMark : String := "❌ FAIL"

/-- Verdict string for a request timeout. -/
def timeoutMark : String := "⏱️ TIMEOUT"

/-- Verdict string for any other exception. -/
def errorMark : String := "❌ ERROR"

/-- The status-code and body inspection of `test_skill` once `data`
decoded successfully; the `Except` error carries any exception raised
while building the message (the slice `data.get('error','')[:80]` raises
`TypeError` when the error field holds a non-sliceable value). -/
def classifyBody (skill_name : String) (status : Nat)
    (data : List (String × PyVal)) : Except String (String × String × PyVal) :=
  if status == 200 then
    if dictContains data "error" then
      match pySlice 80 (dictGetD data "error" (.str "")) with
      | .ok v => .ok (skill_name, warnMark, v)
      | .error e => .error e
    else if successIsFalse data then
      .ok (skill_name, warnMark,
        .str ((pyStr (dictGetD data "message" (dictGetD data "error" (.str "")))).take 80))
    else .ok (skill_name, passMark, .str "OK")
  else
    .ok (skill_name, failMark,
      .str ("HTTP " ++ toString status ++ ": " ++ (pyStr (.dict data)).take 60))

/-- `test_skill` of `test_all_skills.py`.  `respond` is the behaviour of
the HTTP server on the posted parameter object; the surrounding `try`
turns a raised `requests.exceptions.Timeout` into the TIMEOUT outcome and
any other exception (transport, JSON decode, or message-building) into the
ERROR outcome with `str(e)[:80]`. -/
def test_skill (skill_name : String) (skill_info : SkillInfo)
    (respond : List (String × PyVal) → HttpResult) : String × String × PyVal :=
  let params := generate_test_params skill_name skill_info
  match respond params with
  | .raised e =>
      if isTimeout e then (skill_name, timeoutMark, .str "Request timeout")
      else (skill_name, errorMark, .str ((reqExnMsg e).take 80))
  | .response status body =>
      match body.bind (fun data => classifyBody skill_name status data) with
      | .ok out => out
      | .error e => (skill_name, errorMark, .str (e.take 80))

/-- The exception handling of `UnitySkills.call`: the handler chain
`except requests.exceptions.ConnectionError` then `except Exception as e`
selects the returned error dict. -/
def callExnResult (url : String) (e : ReqExn) : List (String × PyVal) :=
  if isConnErr e then
    [("status", .str "error"),
     ("error", .str ("Connection failed to " ++ url ++ ". Unity instance may be down."))]
  else
    [("status", .str "error"), ("error", .str (reqExnMsg e))]

/-- One registry record `{id, name, port}` as read by
`_find_port_by_target` (the registry writer always emits these fields). -/
structure InstanceRec where
  id : String
  name : String
  port : Nat

/-- A registry as loaded from `registry.json`: path-keyed records. -/
abbrev Registry : Type := List (String × InstanceRec)

/-- `UnitySkills._find_port_by_target`.  The outer `Option` models
`os.path.exists` (`none` = file absent); the inner one models the bare
`except: return None` around `json.load` (`none` = unparsable).  On a
parsed registry: one full pass matching `id`, then one matching `name`,
first hit wins in each pass. -/
def findPortByTarget (regFile : Option (Option Registry)) (target : String) :
    Option Nat :=
  match regFile with
  | Option.none => Option.none
  | some Option.none => Option.none
  | some (some data) =>
    match data.find? (fun e => e.2.id == target) with
    | some e => some e.2.port
    | Option.none =>
      match data.find? (fun e => e.2.name == target) with
      | some e => some e.2.port
      | Option.none => Option.none

/-- The well-known default port of `unity_skills.py`. -/
def DEFAULT_PORT : Nat := 8090

/-- Python truthiness of the optional `port` argument (`if port:`). -/
def truthyNat : Option Nat → Bool
  | some n => n != 0
  | Option.none => false

/-- Python truthiness of an optional string argument (`elif target:`,
`if not self.url:`). -/
def truthyStr : Option String → Bool
  | some s => s != ""
  | Option.none => false

/-- `UnitySkills.__init__`: returns the resolved base URL, or the
`ValueError` message raised when a supplied target cannot be resolved. -/
def unitySkillsInit (regFile : Option (Option Registry)) (port : Option Nat)
    (target : Option String) (url : Option String) : Except String String :=
  if truthyStr url then Except.ok (url.getD "")
  else if truthyNat port then Except.ok ("http://localhost:" ++ toString (port.getD 0))
  else if truthyStr target then
    match findPortByTarget regFile (target.getD "") with
    | some found_port => Except.ok ("http://localhost:" ++ toString found_port)
    | Option.none =>
        Except.error ("Could not find Unity instance matching \x27" ++
          target.getD "" ++ "\x27 in registry.")
  else Except.ok ("http://localhost:" ++ toString DEFAULT_PORT)

/-- One collected outcome `(name, status, msg)` of the verification run. -/
def ResultRow : Type := String × String × PyVal

/-- Bytewise `a <= b` on character lists, the string comparison underlying
Python's sort of the result triples by their first components. -/
def charsLe : List Char → List Char → Bool
  | [], _ => true
  | _ :: _, [] => false
  | a :: as, b :: bs => if a = b then charsLe as bs else decide (a < b)

/-- Lexicographic `a <= b` on strings. -/
def strLe (a b : String) : Bool := charsLe a.data b.data

/-- Comparison of result rows by operation name, the sort key
`lambda x: x[0]` of `results.sort`. -/
def rowLe (a b : ResultRow) : Bool := strLe a.1 b.1

/-- Stable insertion of a row into a name-sorted list: the new row goes in
front of the first strictly larger name and after equal ones it was
compared against. -/
def insertRow (x : ResultRow) : List ResultRow → List ResultRow
  | [] => [x]
  | y :: ys => if rowLe x y then x :: y :: ys else y :: insertRow x ys

/-- `results.sort(key=lambda x: x[0])`: a stable sort of the collected
outcomes by operation name, modelled as insertion sort (extensionally any
stable sort by the same key). -/
def sortResults (l : List ResultRow) : List ResultRow :=
  l.foldr insertRow []

/-- `passed`: outcomes whose status contains `'PASS'`. -/
def passedCount (results : List ResultRow) : Nat :=
  results.countP (fun r => strIn "PASS" r.2.1)

/-- `warned`: outcomes whose status contains `'WARN'`. -/
def warnedCount (results : List ResultRow) : Nat :=
  results.countP (fun r => strIn "WARN" r.2.1)

/-- `failed`: outcomes whose status contains `'FAIL'`, `'ERROR'` or
`'TIMEOUT'`. -/
def failedCount (results : List ResultRow) : Nat :=
  results.countP (fun r =>
    strIn "FAIL" r.2.1 || strIn "ERROR" r.2.1 || strIn "TIMEOUT" r.2.1)

/-- Python `msg.replace('|', '\x5c|')` on the character list. -/
def escapeChars : List Char → List Char
  | [] => []
  | c :: cs => if c = '|' then '\x5c' :: '|' :: escapeChars cs else c :: escapeChars cs

/-- `msg_escaped`: the message with every `|` escaped as `\x5c|`. -/
def escapePipes (msg : String) : String := String.mk (escapeChars msg.data)

/-- The table header line, printed and written identically. -/
def tableHeaderLine : String := "| # | Skill Name | Status | Message |"

/-- The header separator line as printed to stdout. -/
def printedDividerLine : String := "|---|------------|--------|---------|"

/-- The header separator line as written to `test_results.md` (note the
doubled trailing pipe in the source's `f.write`). -/
def savedDividerLine : String := "|---|------------|--------|---------||"

/-- One rendered table row
`f"| \x7bi\x7d | \x60\x7bname\x7d\x60 | \x7bstatus\x7d | \x7bmsg_escaped\x7d |"`;
identical in the print loop and the write loop. -/
def tableRowLine (i : Nat) (row : String × String × String) : String :=
  "| " ++ toString i ++ " | `" ++ row.1 ++ "` | " ++ row.2.1 ++ " | " ++
    escapePipes row.2.2 ++ " |"

/-- The rendered rows for `enumerate(results, 1)`. -/
def tableRowLines (results : List (String × String × String)) : List String :=
  (results.enumFrom 1).map (fun p => tableRowLine p.1 p.2)

/-- The table lines printed to stdout by `main`. -/
def displayedTableLines (results : List (String × String × String)) : List String :=
  tableHeaderLine :: printedDividerLine :: tableRowLines results

/-- The table lines written to the persisted `test_results.md` by `main`. -/
def savedTableLines (results : List (String × String × String)) : List String :=
  tableHeaderLine :: savedDividerLine :: tableRowLines results

/-- The dispatch of `main`: every catalog entry is submitted exactly once
and `test_skill` runs independently per operation, against that
operation's own server behaviour `env` (a function of the operation name
and the posted parameter object). -/
def runSkills (catalog : List (String × SkillInfo))
    (env : String → List (String × PyVal) → HttpResult) : List ResultRow :=
  catalog.map (fun c => test_skill c.1 c.2 (env c.1))

/-- A three-row result list with verdicts PASS, WARN, FAIL, the report
scenario of the specification. -/
def exThreeRows : List ResultRow :=
  [("a_op", passMark, PyVal.str "OK"),
   ("b_op", warnMark, PyVal.str "soft"),
   ("c_op", failMark, PyVal.str "HTTP 500: x")]

/-! ### Helper lemmas about substrings -/

theorem charsStart_iff (a b : List Char) : charsStart a b = true ↔ a <+: b := by
  induction a generalizing b with
  | nil => simp [charsStart]
  | cons x xs ih =>
    cases b with
    | nil => simp [charsStart]
    | cons y ys => simp [charsStart, List.cons_prefix_cons, ih]

theorem charsSub_iff (a b : List Char) : charsSub a b = true ↔ a <:+: b := by
  induction b with
  | nil =>
    simp only [charsSub, charsStart_iff, List.infix_nil, List.prefix_nil]
  | cons y ys ih =>
    simp [charsSub, charsStart_iff, ih, List.infix_cons_iff]

theorem strIn_trans {a b c : String} (h1 : strIn a b = true) (h2 : strIn b c = true) :
    strIn a c = true := by
  rw [strIn, charsSub_iff] at *
  exact h1.trans h2

/-! ### Helper lemmas about the synthesized parameter dict -/

theorem lookup_cons (a k : String) (b : PyVal) (es : List (String × PyVal)) :
    List.lookup a ((k, b) :: es) = if a == k then some b else List.lookup a es := by
  cases h : a == k <;> simp [List.lookup, h]

theorem dictSet_cons_ne (pk : String) (pv : PyVal) (rest : List (String × PyVal))
    (k : String) (v : PyVal) (hp : pk ≠ k) :
    dictSet ((pk, pv) :: rest) k v = (pk, pv) :: dictSet rest k v := by
  have hp' : (pk == k) = false := beq_eq_false_iff_ne.mpr hp
  have hany : ((pk, pv) :: rest).any (fun q => q.1 == k) = rest.any (fun q => q.1 == k) := by
    rw [List.any_cons]
    show ((pk == k) || _) = _
    rw [hp', Bool.false_or]
  cases hr : rest.any (fun q => q.1 == k) with
  | true =>
      rw [dictSet, dictSet, hany, hr, if_pos rfl, if_pos rfl, List.map_cons]
      rw [if_neg (by simp [hp'])]
  | false =>
      rw [dictSet, dictSet, hany, hr, if_neg (by simp), if_neg (by simp), List.cons_append]

theorem lookup_dictSet_self (d : List (String × PyVal)) (k : String) (v : PyVal) :
    List.lookup k (dictSet d k v) = some v := by
  induction d with
  | nil => simp [dictSet, lookup_cons]
  | cons p rest ih =>
    obtain ⟨pk, pv⟩ := p
    by_cases hp : pk = k
    · subst hp
      rw [dictSet, if_pos (by simp), List.map_cons, if_pos (by simp), lookup_cons,
        if_pos (by simp)]
    · rw [dictSet_cons_ne pk pv rest k v hp, lookup_cons,
        if_neg (by simp [Ne.symm hp]), ih]

theorem lookup_map_setval (rest : List (String × PyVal)) (k k2 : String) (v : PyVal)
    (h : k2 ≠ k) :
    List.lookup k2 (rest.map (fun q => if q.1 == k then (k, v) else q)) =
      List.lookup k2 rest := by
  induction rest with
  | nil => rfl
  | cons q rest ih =>
    obtain ⟨qk, qv⟩ := q
    rw [List.map_cons]
    by_cases hq : qk = k
    · subst hq
      rw [if_pos (by simp), lookup_cons, lookup_cons, if_neg (by simp [h]),
        if_neg (by simp [h]), ih]
    · rw [if_neg (by simp [hq]), lookup_cons, lookup_cons, ih]

theorem lookup_append_single (d : List (String × PyVal)) (k k2 : String) (v : PyVal)
    (hk2 : k2 ≠ k) :
    List.lookup k2 (d ++ [(k, v)]) = List.lookup k2 d := by
  induction d with
  | nil => simp [lookup_cons, hk2]
  | cons q rest ih =>
    obtain ⟨qk, qv⟩ := q
    rw [List.cons_append, lookup_cons, lookup_cons, ih]

theorem lookup_dictSet_ne (d : List (String × PyVal)) (k k2 : String) (v : PyVal)
    (h : k2 ≠ k) : List.lookup k2 (dictSet d k v) = List.lookup k2 d := by
  cases hd : d.any (fun q => q.1 == k) with
  | true =>
    rw [dictSet, hd, if_pos rfl]
    exact lookup_map_setval d k k2 v h
  | false =>
    rw [dictSet, hd, if_neg (by simp)]
    exact lookup_append_single d k k2 v h

theorem lookup_paramStep_ne (params : List (String × PyVal)) (p : ParamDesc)
    (k2 : String) (h : k2 ≠ p.name) :
    List.lookup k2 (paramStep params p) = List.lookup k2 params := by
  unfold paramStep
  cases synthVal p with
  | some v => exact lookup_dictSet_ne params p.name k2 v h
  | none => rfl

theorem lookup_foldl_not_mem (ps : List ParamDesc) (k : String)
    (h : ∀ q ∈ ps, q.name ≠ k) (acc : List (String × PyVal)) :
    List.lookup k (ps.foldl paramStep acc) = List.lookup k acc := by
  induction ps generalizing acc with
  | nil => rfl
  | cons q rest ih =>
    rw [List.foldl_cons,
      ih (fun q2 hq2 => h q2 (List.mem_cons_of_mem q hq2)) (paramStep acc q)]
    exact lookup_paramStep_ne acc q k fun e => h q (List.mem_cons_self q rest) e.symm

theorem lookup_foldl_mem (ps : List ParamDesc) (p : ParamDesc) (hp : p ∈ ps)
    (hnd : (ps.map (fun q => q.name)).Nodup) (acc : List (String × PyVal)) :
    List.lookup p.name (ps.foldl paramStep acc) =
      match synthVal p with
      | some v => some v
      | Option.none => List.lookup p.name acc := by
  induction ps generalizing acc with
  | nil => cases hp
  | cons q rest ih =>
    rw [List.map_cons, List.nodup_cons] at hnd
    rcases List.mem_cons.mp hp with rfl | hmem
    · rw [List.foldl_cons]
      rw [lookup_foldl_not_mem rest p.name ?hrest (paramStep acc p)]
      case hrest =>
        intro q2 hq2 he
        exact hnd.1 (he ▸ List.mem_map_of_mem (fun r => r.name) hq2)
      unfold paramStep
      cases synthVal p with
      | some v => exact lookup_dictSet_self acc p.name v
      | none => rfl
    · have hq : q.name ≠ p.name := by
        intro he
        exact hnd.1 (he ▸ List.mem_map_of_mem (fun r => r.name) hmem)
      rw [List.foldl_cons, ih hmem hnd.2 (paramStep acc q),
        lookup_paramStep_ne acc q p.name fun e => hq e.symm]



theorem synthVal_string (p : ParamDesc) (hdef : usableDefault p.defaultValue = false)
    (hreq : p.required = true) (htype : p.type = "string") :
    synthVal p = some (.str (stringHeuristic p.name)) := by
  unfold synthVal
  rw [hdef, htype, hreq]
  simp

theorem synthVal_unknown (p : ParamDesc) (hdef : usableDefault p.defaultValue = false)
    (h1 : p.type ≠ "string") (h2 : p.type ≠ "integer") (h3 : p.type ≠ "number")
    (h4 : p.type ≠ "boolean") (h5 : p.type ≠ "array") (h6 : p.type ≠ "object") :
    synthVal p = Option.none := by
  unfold synthVal
  rw [hdef]
  simp [beq_eq_false_iff_ne.mpr h1, beq_eq_false_iff_ne.mpr h2,
    beq_eq_false_iff_ne.mpr h3, beq_eq_false_iff_ne.mpr h4,
    beq_eq_false_iff_ne.mpr h5, beq_eq_false_iff_ne.mpr h6]

theorem stringHeuristic_path (nm : String) (hpath : strIn "path" (strLower nm) = true)
    (hasset : strIn "asset" (strLower nm) = false) : stringHeuristic nm = "Assets" := by
  have h1 : strIn "assetpath" (strLower nm) = false := by
    cases h : strIn "assetpath" (strLower nm) with
    | false => rfl
    | true =>
      exact absurd (@strIn_trans "asset" "assetpath" (strLower nm) (by decide) h)
        (by simp [hasset])
  simp [stringHeuristic, h1, hpath]

theorem stringHeuristic_wild (nm : String)
    (hfs : strIn "filter" (strLower nm) = true ∨ strIn "search" (strLower nm) = true)
    (hpath : strIn "path" (strLower nm) = false)
    (hfolder : strIn "folder" (strLower nm) = false)
    (hname : strIn "name" (strLower nm) = false)
    (hitems : strIn "items" (strLower nm) = false) : stringHeuristic nm = "*" := by
  have h1 : strIn "assetpath" (strLower nm) = false := by
    cases h : strIn "assetpath" (strLower nm) with
    | false => rfl
    | true =>
      exact absurd (@strIn_trans "path" "assetpath" (strLower nm) (by decide) h)
        (by simp [hpath])
  rcases hfs with hf | hs
  · simp [stringHeuristic, h1, hpath, hfolder, hname, hitems, hf]
  · simp [stringHeuristic, h1, hpath, hfolder, hname, hitems, hs]

/-- C1: for every operation whose name is a key of the `SAFE_PARAMS`
override table, `generate_test_params` returns exactly the table's fixed
parameter object for the whole operation, ignoring the declared schema;
in particular `asset_delete` synthesizes exactly
`\x7b"assetPath": "Assets/__nonexistent_test_file__.txt"\x7d`. -/
theorem safe_params_override (skill_name : String) (ps : List (String × PyVal))
    (info : SkillInfo) (h : List.lookup skill_name SAFE_PARAMS = some ps) :
    generate_test_params skill_name info = ps ∧
    generate_test_params "asset_delete" info =
      [("assetPath", PyVal.str "Assets/__nonexistent_test_file__.txt")] := by
  constructor
  · unfold generate_test_params
    rw [h]
  · rfl

/-- C1 witness: `asset_delete` with a schema that declares its own default
and required flag still synthesizes exactly the override object. -/
theorem safe_params_override_witness :
    generate_test_params "asset_delete"
      ⟨[⟨"assetPath", "string", PyVal.str "Assets/schema_default.txt", true⟩]⟩ =
      [("assetPath", PyVal.str "Assets/__nonexistent_test_file__.txt")] :=
  (safe_params_override "asset_delete"
    [("assetPath", PyVal.str "Assets/__nonexistent_test_file__.txt")]
    ⟨[⟨"assetPath", "string", PyVal.str "Assets/schema_default.txt", true⟩]⟩ rfl).1

/-- C3 (amended): for an operation outside the override table, a required
string parameter with no usable default whose lowercased name contains
"path" but not "asset" synthesizes the literal "Assets"; one whose name
contains "filter" or "search" synthesizes "*" only when the name also
avoids every earlier heuristic substring ("path", "folder", "name",
"items" — "assetpath" is subsumed by "path"). -/
theorem synth_string_heuristics (op : String) (info : SkillInfo) (p : ParamDesc)
    (hsafe : List.lookup op SAFE_PARAMS = Option.none)
    (hnd : (info.parameters.map (fun q => q.name)).Nodup)
    (hp : p ∈ info.parameters)
    (hdef : usableDefault p.defaultValue = false)
    (hreq : p.required = true)
    (htype : p.type = "string") :
    (strIn "path" (strLower p.name) = true → strIn "asset" (strLower p.name) = false →
      List.lookup p.name (generate_test_params op info) = some (PyVal.str "Assets")) ∧
    ((strIn "filter" (strLower p.name) = true ∨ strIn "search" (strLower p.name) = true) →
      strIn "path" (strLower p.name) = false → strIn "folder" (strLower p.name) = false →
      strIn "name" (strLower p.name) = false → strIn "items" (strLower p.name) = false →
      List.lookup p.name (generate_test_params op info) = some (PyVal.str "*")) := by
  have hgen : generate_test_params op info = info.parameters.foldl paramStep [] := by
    unfold generate_test_params
    rw [hsafe]
  have hfold := lookup_foldl_mem info.parameters p hp hnd []
  rw [synthVal_string p hdef hreq htype] at hfold
  constructor
  · intro h1 h2
    rw [hgen, hfold]
    show some (PyVal.str (stringHeuristic p.name)) = some (PyVal.str "Assets")
    rw [stringHeuristic_path p.name h1 h2]
  · intro hfs h1 h2 h3 h4
    rw [hgen, hfold]
    show some (PyVal.str (stringHeuristic p.name)) = some (PyVal.str "*")
    rw [stringHeuristic_wild p.name hfs h1 h2 h3 h4]

/-- C3 counterexample: the parameter `filterPath` contains "filter" but
synthesis yields "Assets", not the wildcard "*" the claim demands: the
"path" heuristic is checked first. -/
theorem synth_filter_path_counterexample :
    generate_test_params "diag_filter" ⟨[⟨"filterPath", "string", PyVal.none, true⟩]⟩ =
      [("filterPath", PyVal.str "Assets")] ∧
    strIn "filter" (strLower "filterPath") = true ∧
    List.lookup "diag_filter" SAFE_PARAMS = Option.none ∧
    PyVal.str "Assets" ≠ PyVal.str "*" := by
  refine ⟨rfl, by decide, rfl, ?_⟩
  intro h
  exact absurd (PyVal.str.inj h) (by decide)

/-- C3 witness: a pure "path" name gets "Assets" and a pure "search" name
gets "*". -/
theorem synth_string_heuristics_witness :
    List.lookup "logPath" (generate_test_params "diag_read"
      ⟨[⟨"logPath", "string", PyVal.none, true⟩]⟩) = some (PyVal.str "Assets") ∧
    List.lookup "searchKey" (generate_test_params "diag_find"
      ⟨[⟨"searchKey", "string", PyVal.none, true⟩]⟩) = some (PyVal.str "*") := by
  constructor
  · exact (synth_string_heuristics "diag_read"
      ⟨[⟨"logPath", "string", PyVal.none, true⟩]⟩
      ⟨"logPath", "string", PyVal.none, true⟩ rfl (by decide)
      (List.mem_cons_self _ _) rfl rfl rfl).1 (by decide) (by decide)
  · exact (synth_string_heuristics "diag_find"
      ⟨[⟨"searchKey", "string", PyVal.none, true⟩]⟩
      ⟨"searchKey", "string", PyVal.none, true⟩ rfl (by decide)
      (List.mem_cons_self _ _) rfl rfl rfl).2 (Or.inr (by decide)) (by decide)
      (by decide) (by decide) (by decide)

/-- C10: for an operation outside the override table, a required parameter
with no usable default whose declared type is none of the six known types
is silently omitted from the synthesized parameter object. -/
theorem synth_unknown_type_omitted (op : String) (info : SkillInfo) (p : ParamDesc)
    (hsafe : List.lookup op SAFE_PARAMS = Option.none)
    (hnd : (info.parameters.map (fun q => q.name)).Nodup)
    (hp : p ∈ info.parameters)
    (hdef : usableDefault p.defaultValue = false)
    (hreq : p.required = true)
    (h1 : p.type ≠ "string") (h2 : p.type ≠ "integer") (h3 : p.type ≠ "number")
    (h4 : p.type ≠ "boolean") (h5 : p.type ≠ "array") (h6 : p.type ≠ "object") :
    List.lookup p.name (generate_test_params op info) = Option.none := by
  have hgen : generate_test_params op info = info.parameters.foldl paramStep [] := by
    unfold generate_test_params
    rw [hsafe]
  have hfold := lookup_foldl_mem info.parameters p hp hnd []
  rw [synthVal_unknown p hdef h1 h2 h3 h4 h5 h6] at hfold
  rw [hgen, hfold]
  rfl

/-- C10 witness: a required parameter of unknown type "binary" is absent
from the synthesized object. -/
theorem synth_unknown_type_omitted_witness :
    List.lookup "payload" (generate_test_params "diag_blob"
      ⟨[⟨"payload", "binary", PyVal.none, true⟩]⟩) = Option.none :=
  synth_unknown_type_omitted "diag_blob"
    ⟨[⟨"payload", "binary", PyVal.none, true⟩]⟩
    ⟨"payload", "binary", PyVal.none, true⟩ rfl (by decide)
    (List.mem_cons_self _ _) rfl rfl (by decide) (by decide) (by decide) (by decide)
    (by decide) (by decide)

theorem dictContains_of_lookup (d : List (String × PyVal)) (k : String) (v : PyVal)
    (h : List.lookup k d = some v) : dictContains d k = true := by
  induction d with
  | nil => cases h
  | cons q rest ih =>
    obtain ⟨qk, qv⟩ := q
    rw [lookup_cons] at h
    by_cases hk : k = qk
    · simp [dictContains, List.any_cons, Ne.symm, hk]
    · rw [if_neg (by simp [hk])] at h
      have := ih h
      simp only [dictContains, List.any_cons, Bool.or_eq_true]
      exact Or.inr (by simpa [dictContains] using this)

/-- C2: the verdict classifier of `test_skill` follows the source's
evaluation order: a raised timeout gives TIMEOUT; any other raised
exception gives ERROR with the truncated exception text; a decoded
response with status other than 200 gives FAIL with a message of the
status code and the truncated body; a 200 body with an `error` field gives
WARN with the truncated error text; otherwise a 200 body with
`success == False` gives WARN with the truncated message/error text; and a
200 body with neither indicator gives PASS. -/
theorem classifier_order (nm : String) (info : SkillInfo)
    (respond : List (String × PyVal) → HttpResult)
    (status : Nat) (data : List (String × PyVal)) :
    (∀ e, respond (generate_test_params nm info) = HttpResult.raised e →
      isTimeout e = true →
      test_skill nm info respond = (nm, timeoutMark, PyVal.str "Request timeout")) ∧
    (∀ e, respond (generate_test_params nm info) = HttpResult.raised e →
      isTimeout e = false →
      test_skill nm info respond = (nm, errorMark, PyVal.str ((reqExnMsg e).take 80))) ∧
    (respond (generate_test_params nm info) = HttpResult.response status (Except.ok data) →
      status ≠ 200 →
      test_skill nm info respond = (nm, failMark,
        PyVal.str ("HTTP " ++ toString status ++ ": " ++ (pyStr (.dict data)).take 60))) ∧
    (∀ s, respond (generate_test_params nm info) = HttpResult.response 200 (Except.ok data) →
      List.lookup "error" data = some (PyVal.str s) →
      test_skill nm info respond = (nm, warnMark, PyVal.str (s.take 80))) ∧
    (∀ v, respond (generate_test_params nm info) = HttpResult.response 200 (Except.ok data) →
      dictContains data "error" = false →
      List.lookup "success" data = some v → pyEqFalse v = true →
      test_skill nm info respond = (nm, warnMark,
        PyVal.str ((pyStr (dictGetD data "message" (dictGetD data "error" (PyVal.str "")))).take 80))) ∧
    (respond (generate_test_params nm info) = HttpResult.response 200 (Except.ok data) →
      dictContains data "error" = false → successIsFalse data = false →
      test_skill nm info respond = (nm, passMark, PyVal.str "OK")) := by
  refine ⟨?_, ?_, ?_, ?_, ?_, ?_⟩
  · intro e he hti
    simp only [test_skill]
    rw [he]
    simp [hti]
  · intro e he hti
    simp only [test_skill]
    rw [he]
    simp [hti]
  · intro he hstatus
    simp only [test_skill]
    rw [he]
    simp [Except.bind, classifyBody, beq_eq_false_iff_ne.mpr hstatus]
  · intro s he hlook
    simp only [test_skill]
    rw [he]
    simp [Except.bind, classifyBody, dictContains_of_lookup data "error" (PyVal.str s) hlook,
      dictGetD, hlook, pySlice]
  · intro v he hcont hsucc heq
    simp only [test_skill]
    rw [he]
    simp [Except.bind, classifyBody, hcont, successIsFalse, hsucc, heq]
  · intro he hcont hsf
    simp only [test_skill]
    rw [he]
    simp [Except.bind, classifyBody, hcont, hsf]

/-- C2 witness: HTTP 200 with body containing `success = False` and
`message = "not found"` classifies as WARN with message "not found". -/
theorem classifier_order_witness :
    test_skill "wop" ⟨[]⟩ (fun _ => HttpResult.response 200
      (Except.ok [("success", PyVal.bool false), ("message", PyVal.str "not found")])) =
      ("wop", warnMark, PyVal.str "not found") := by
  have h := (classifier_order "wop" ⟨[]⟩ (fun _ => HttpResult.response 200
      (Except.ok [("success", PyVal.bool false), ("message", PyVal.str "not found")]))
      200 [("success", PyVal.bool false), ("message", PyVal.str "not found")]).2.2.2.2.1
  exact h (PyVal.bool false) rfl rfl rfl rfl

/-- C5 counterexample: on the plain-call path, a read timeout is handled
by the generic `except Exception` handler of `UnitySkills.call` and maps
to the same failure dict as a non-timeout exception with the same text. -/
theorem call_timeout_conflated :
    callExnResult "http://localhost:8090" (ReqExn.readTimeoutErr "boom") =
      callExnResult "http://localhost:8090" (ReqExn.otherExn "boom") ∧
    isTimeout (ReqExn.readTimeoutErr "boom") = true ∧
    isTimeout (ReqExn.otherExn "boom") = false :=
  ⟨rfl, rfl, rfl⟩

/-- C5 (amended): on the verification path a raised timeout yields the
distinct TIMEOUT verdict and every other exception yields ERROR; on the
plain-call path the timeout is not distinguished: a read timeout falls to
the generic handler and returns the same failure dict shape as any other
non-connection exception, while a connect timeout is reported as a
connection error. -/
theorem timeout_distinct_amended (nm : String) (info : SkillInfo)
    (respond : List (String × PyVal) → HttpResult) (url m : String) :
    (∀ e, respond (generate_test_params nm info) = HttpResult.raised e →
      isTimeout e = true →
      test_skill nm info respond = (nm, timeoutMark, PyVal.str "Request timeout")) ∧
    (∀ e, respond (generate_test_params nm info) = HttpResult.raised e →
      isTimeout e = false →
      test_skill nm info respond = (nm, errorMark, PyVal.str ((reqExnMsg e).take 80))) ∧
    timeoutMark ≠ errorMark ∧
    callExnResult url (ReqExn.readTimeoutErr m) =
      [("status", PyVal.str "error"), ("error", PyVal.str m)] ∧
    callExnResult url (ReqExn.connectTimeoutErr m) =
      [("status", PyVal.str "error"),
       ("error", PyVal.str ("Connection failed to " ++ url ++ ". Unity instance may be down."))] := by
  refine ⟨?_, ?_, by decide, rfl, rfl⟩
  · intro e he hti
    simp only [test_skill]
    rw [he]
    simp [hti]
  · intro e he hti
    simp only [test_skill]
    rw [he]
    simp [hti]

/-- C5 witness: a read timeout on the verification path yields TIMEOUT. -/
theorem timeout_distinct_amended_witness :
    test_skill "op_w5" ⟨[]⟩ (fun _ => HttpResult.raised (ReqExn.readTimeoutErr "slow")) =
      ("op_w5", timeoutMark, PyVal.str "Request timeout") :=
  (timeout_distinct_amended "op_w5" ⟨[]⟩
    (fun _ => HttpResult.raised (ReqExn.readTimeoutErr "slow")) "u" "m").1
    (ReqExn.readTimeoutErr "slow") rfl rfl

theorem find_id_first (data : Registry) (target : String)
    (hnd : (data.map (fun e => e.2.id)).Nodup)
    (path : String) (r : InstanceRec) (hmem : (path, r) ∈ data) (hid : r.id = target) :
    data.find? (fun e => e.2.id == target) = some (path, r) := by
  induction data with
  | nil => cases hmem
  | cons e rest ih =>
    rw [List.map_cons, List.nodup_cons] at hnd
    rcases List.mem_cons.mp hmem with heq | hmem2
    · subst heq
      have hti : ((path, r).2.id == target) = true := by simp [hid]
      rw [List.find?_cons, hti]
    · have hne : e.2.id ≠ target := by
        intro hc
        apply hnd.1
        rw [hc, ← hid]
        exact List.mem_map_of_mem (fun q => q.2.id) hmem2
      have hti : (e.2.id == target) = false := beq_eq_false_iff_ne.mpr hne
      rw [List.find?_cons, hti]
      exact ih hnd.2 hmem2

theorem findPortByTarget_parsed (data : Registry) (target : String) :
    findPortByTarget (some (some data)) target =
      match data.find? (fun e => e.2.id == target) with
      | some e => some e.2.port
      | Option.none =>
        match data.find? (fun e => e.2.name == target) with
        | some e => some e.2.port
        | Option.none => Option.none := rfl

/-- C4: with pairwise-distinct record ids, resolving a token equal to some
record's id returns that record's port — id matches are tried over the
whole registry before any name match, so another record whose name equals
the token is never preferred — and when no record's id matches, the first
record whose name matches wins. -/
theorem resolve_id_precedence (data : Registry) (target : String)
    (hnd : (data.map (fun e => e.2.id)).Nodup) :
    (∀ path r, (path, r) ∈ data → r.id = target →
      findPortByTarget (some (some data)) target = some r.port) ∧
    ((∀ e ∈ data, e.2.id ≠ target) →
      ∀ path r, data.find? (fun e => e.2.name == target) = some (path, r) →
        findPortByTarget (some (some data)) target = some r.port) := by
  constructor
  · intro path r hmem hid
    rw [findPortByTarget_parsed, find_id_first data target hnd path r hmem hid]
  · intro hnone path r hfind
    have hidnone : data.find? (fun e => e.2.id == target) = Option.none := by
      rw [List.find?_eq_none]
      intro x hx
      simp [hnone x hx]
    rw [findPortByTarget_parsed, hidnone, hfind]

/-- C4 witness: a registry where the second record's name equals the first
record's id still resolves to the id match's port. -/
theorem resolve_id_precedence_witness :
    findPortByTarget (some (some [("/p1", ⟨"A1", "Foo", 8091⟩),
      ("/p2", ⟨"B2", "A1", 9999⟩)])) "A1" = some 8091 :=
  (resolve_id_precedence [("/p1", ⟨"A1", "Foo", 8091⟩), ("/p2", ⟨"B2", "A1", 9999⟩)]
    "A1" (by decide)).1 "/p1" ⟨"A1", "Foo", 8091⟩ (List.mem_cons_self _ _) rfl

/-- C9: an absent registry file, an unparsable registry file, and a token
matching no record's id or name all resolve to no port; and when a target
was supplied to the client constructor, the failed resolution surfaces as
the `ValueError` instead of any fallback endpoint. -/
theorem resolution_notfound (t : String) (data : Registry)
    (regFile : Option (Option Registry)) :
    findPortByTarget Option.none t = Option.none ∧
    findPortByTarget (some Option.none) t = Option.none ∧
    ((∀ e ∈ data, e.2.id ≠ t ∧ e.2.name ≠ t) →
      findPortByTarget (some (some data)) t = Option.none) ∧
    (t ≠ "" → findPortByTarget regFile t = Option.none →
      unitySkillsInit regFile Option.none (some t) Option.none =
        Except.error ("Could not find Unity instance matching \x27" ++ t ++
          "\x27 in registry.")) := by
  refine ⟨rfl, rfl, ?_, ?_⟩
  · intro h
    have h1 : data.find? (fun e => e.2.id == t) = Option.none := by
      rw [List.find?_eq_none]
      intro x hx
      simp [(h x hx).1]
    have h2 : data.find? (fun e => e.2.name == t) = Option.none := by
      rw [List.find?_eq_none]
      intro x hx
      simp [(h x hx).2]
    rw [findPortByTarget_parsed, h1, h2]
  · intro ht hfind
    have htr : truthyStr (some t) = true := by
      simp [truthyStr, ht]
    unfold unitySkillsInit
    rw [if_neg (by simp [truthyStr]), if_neg (by simp [truthyNat]), if_pos (by simp [htr])]
    show (match findPortByTarget regFile ((some t).getD "") with
      | some found_port => Except.ok ("http://localhost:" ++ toString found_port)
      | Option.none =>
          Except.error ("Could not find Unity instance matching \x27" ++
            (some t).getD "" ++ "\x27 in registry.")) = _
    rw [show (some t).getD "" = t from rfl, hfind]

/-- C9 witness: the single-record registry of the specification's concrete
scenario rejects the unknown token "nope" with the fatal error. -/
theorem resolution_notfound_witness :
    unitySkillsInit (some (some [("/proj/A", ⟨"A1", "Foo", 8091⟩)]))
      Option.none (some "nope") Option.none =
      Except.error ("Could not find Unity instance matching \x27nope\x27 in registry.") :=
  (resolution_notfound "nope" [("/proj/A", ⟨"A1", "Foo", 8091⟩)]
    (some (some [("/proj/A", ⟨"A1", "Foo", 8091⟩)]))).2.2.2 (by decide)
    ((resolution_notfound "nope" [("/proj/A", ⟨"A1", "Foo", 8091⟩)]
      (some (some [("/proj/A", ⟨"A1", "Foo", 8091⟩)]))).2.2.1 (by decide))

/-- C6 evaluation: the displayed and persisted tables share the header
line and every rendered row verbatim, but their separator lines differ —
`main` prints `|---|------------|--------|---------|` yet writes
`|---|------------|--------|---------||` (an extra trailing pipe) to the
persisted report, so the two structures are not identical. -/
theorem report_divider_mismatch :
    (∀ results, (displayedTableLines results).head? = (savedTableLines results).head?) ∧
    (∀ results, (displayedTableLines results).drop 2 = (savedTableLines results).drop 2) ∧
    (displayedTableLines [])[1]? = some printedDividerLine ∧
    (savedTableLines [])[1]? = some savedDividerLine ∧
    printedDividerLine ≠ savedDividerLine ∧
    displayedTableLines [] ≠ savedTableLines [] :=
  ⟨fun _ => rfl, fun _ => rfl, rfl, rfl, by decide, by decide⟩

/-! ### Sorting lemmas for the reporter -/

theorem charsLe_total (a b : List Char) : charsLe a b = true ∨ charsLe b a = true := by
  induction a generalizing b with
  | nil => exact Or.inl rfl
  | cons x xs ih =>
    cases b with
    | nil => exact Or.inr rfl
    | cons y ys =>
      by_cases hxy : x = y
      · subst hxy
        rcases ih ys with h | h
        · exact Or.inl (by simp [charsLe, h])
        · exact Or.inr (by simp [charsLe, h])
      · rcases lt_or_gt_of_ne hxy with h | h
        · exact Or.inl (by simp [charsLe, hxy, h])
        · exact Or.inr (by simp [charsLe, Ne.symm hxy, h])

theorem charsLe_trans (a b c : List Char) (h1 : charsLe a b = true)
    (h2 : charsLe b c = true) : charsLe a c = true := by
  induction a generalizing b c with
  | nil => rfl
  | cons x xs ih =>
    cases b with
    | nil => simp [charsLe] at h1
    | cons y ys =>
      cases c with
      | nil => simp [charsLe] at h2
      | cons z zs =>
        by_cases hxy : x = y <;> by_cases hyz : y = z
        · subst hxy
          subst hyz
          simp only [charsLe, if_pos rfl] at h1 h2 ⊢
          exact ih ys zs h1 h2
        · subst hxy
          rw [charsLe, if_neg hyz] at h2
          have hlt : x < z := of_decide_eq_true h2
          rw [charsLe, if_neg (ne_of_lt hlt), decide_eq_true_eq]
          exact hlt
        · subst hyz
          rw [charsLe, if_neg hxy] at h1
          have hlt : x < y := of_decide_eq_true h1
          rw [charsLe, if_neg (ne_of_lt hlt), decide_eq_true_eq]
          exact hlt
        · rw [charsLe, if_neg hxy] at h1
          rw [charsLe, if_neg hyz] at h2
          have hlt : x < z := lt_trans (of_decide_eq_true h1) (of_decide_eq_true h2)
          rw [charsLe, if_neg (ne_of_lt hlt), decide_eq_true_eq]
          exact hlt

theorem rowLe_total (a b : ResultRow) : rowLe a b = true ∨ rowLe b a = true :=
  charsLe_total a.1.data b.1.data

theorem rowLe_trans (a b c : ResultRow) (h1 : rowLe a b = true)
    (h2 : rowLe b c = true) : rowLe a c = true :=
  charsLe_trans a.1.data b.1.data c.1.data h1 h2

theorem insertRow_eq_orderedInsert (x : ResultRow) (l : List ResultRow) :
    insertRow x l = List.orderedInsert (fun a b => rowLe a b = true) x l := by
  induction l with
  | nil => rfl
  | cons y ys ih =>
    rw [insertRow, List.orderedInsert]
    by_cases h : rowLe x y = true
    · rw [if_pos h, if_pos h]
    · rw [if_neg (by simpa using h), if_neg h, ih]

theorem sortResults_eq_insertionSort (l : List ResultRow) :
    sortResults l = List.insertionSort (fun a b => rowLe a b = true) l := by
  induction l with
  | nil => rfl
  | cons x xs ih =>
    rw [sortResults, List.foldr_cons, List.insertionSort]
    rw [show xs.foldr insertRow [] = sortResults xs from rfl, ih,
      insertRow_eq_orderedInsert]

theorem sortResults_sorted (l : List ResultRow) :
    List.Pairwise (fun a b : ResultRow => rowLe a b = true) (sortResults l) := by
  rw [sortResults_eq_insertionSort]
  haveI : IsTotal ResultRow (fun a b => rowLe a b = true) := ⟨rowLe_total⟩
  haveI : IsTrans ResultRow (fun a b => rowLe a b = true) := ⟨rowLe_trans⟩
  exact List.sorted_insertionSort (fun a b => rowLe a b = true) l

theorem sortResults_perm (l : List ResultRow) : (sortResults l).Perm l := by
  rw [sortResults_eq_insertionSort]
  exact List.perm_insertionSort (fun a b => rowLe a b = true) l

/-- C7: the report is deterministic with respect to completion order: for
any permutation of the collected outcomes, the sorted rows are ordered by
operation name and are a permutation of the collected multiset, the
summary counts equal the per-verdict tallies (with FAIL, ERROR and TIMEOUT
pooled into `failed`), and the three-row PASS/WARN/FAIL scenario tallies
as passed=1, warned=1, failed=1. -/
theorem report_sort_and_counts (l l2 : List ResultRow) (hperm : l2.Perm l)
    (hmarks : ∀ r ∈ l, r.2.1 = passMark ∨ r.2.1 = warnMark ∨ r.2.1 = failMark ∨
      r.2.1 = errorMark ∨ r.2.1 = timeoutMark) :
    List.Pairwise (fun a b : ResultRow => rowLe a b = true) (sortResults l2) ∧
    (sortResults l2).Perm l ∧
    passedCount (sortResults l2) = l.countP (fun r => r.2.1 == passMark) ∧
    warnedCount (sortResults l2) = l.countP (fun r => r.2.1 == warnMark) ∧
    failedCount (sortResults l2) = l.countP (fun r =>
      r.2.1 == failMark || r.2.1 == errorMark || r.2.1 == timeoutMark) ∧
    passedCount exThreeRows = 1 ∧ warnedCount exThreeRows = 1 ∧
    failedCount exThreeRows = 1 := by
  have hp : (sortResults l2).Perm l := (sortResults_perm l2).trans hperm
  refine ⟨sortResults_sorted l2, hp, ?_, ?_, ?_, by decide, by decide, by decide⟩
  · rw [passedCount, List.Perm.countP_eq _ hp]
    apply List.countP_congr
    intro r hr
    rcases hmarks r hr with h | h | h | h | h <;> rw [h] <;> exact by decide
  · rw [warnedCount, List.Perm.countP_eq _ hp]
    apply List.countP_congr
    intro r hr
    rcases hmarks r hr with h | h | h | h | h <;> rw [h] <;> exact by decide
  · rw [failedCount, List.Perm.countP_eq _ hp]
    apply List.countP_congr
    intro r hr
    rcases hmarks r hr with h | h | h | h | h <;> rw [h] <;> exact by decide

/-- C7 witness: the three-row scenario presented in reversed completion
order still sorts to name order. -/
theorem report_sort_and_counts_witness :
    List.Pairwise (fun a b : ResultRow => rowLe a b = true)
      (sortResults exThreeRows.reverse) :=
  (report_sort_and_counts exThreeRows exThreeRows.reverse (List.reverse_perm _)
    (by
      intro r hr
      simp only [exThreeRows, List.mem_cons, List.mem_singleton,
        List.not_mem_nil, or_false] at hr
      rcases hr with rfl | rfl | rfl
      · exact Or.inl rfl
      · exact Or.inr (Or.inl rfl)
      · exact Or.inr (Or.inr (Or.inl rfl)))).1

theorem test_skill_raised (n : String) (info : SkillInfo)
    (respond : List (String × PyVal) → HttpResult) (e : ReqExn)
    (hr : respond (generate_test_params n info) = HttpResult.raised e) :
    test_skill n info respond =
      if isTimeout e then (n, timeoutMark, PyVal.str "Request timeout")
      else (n, errorMark, PyVal.str ((reqExnMsg e).take 80)) := by
  simp only [test_skill]
  rw [hr]

theorem test_skill_response (n : String) (info : SkillInfo)
    (respond : List (String × PyVal) → HttpResult) (st : Nat)
    (body : Except String (List (String × PyVal)))
    (hr : respond (generate_test_params n info) = HttpResult.response st body) :
    test_skill n info respond =
      match body.bind (fun data => classifyBody n st data) with
      | Except.ok out => out
      | Except.error e => (n, errorMark, PyVal.str (e.take 80)) := by
  simp only [test_skill]
  rw [hr]

theorem classifyBody_cases (n : String) (s : Nat) (d : List (String × PyVal)) :
    (∃ msg, classifyBody n s d = Except.error msg) ∨
    (∃ st msg, classifyBody n s d = Except.ok (n, st, msg) ∧
      (st = passMark ∨ st = warnMark ∨ st = failMark)) := by
  unfold classifyBody
  by_cases h200 : (s == 200) = true
  · rw [if_pos h200]
    by_cases herr : dictContains d "error" = true
    · rw [if_pos herr]
      cases hsl : pySlice 80 (dictGetD d "error" (.str "")) with
      | ok v => exact Or.inr ⟨warnMark, v, rfl, Or.inr (Or.inl rfl)⟩
      | error e => exact Or.inl ⟨e, rfl⟩
    · rw [if_neg herr]
      by_cases hsf : successIsFalse d = true
      · rw [if_pos hsf]
        exact Or.inr ⟨warnMark, _, rfl, Or.inr (Or.inl rfl)⟩
      · rw [if_neg hsf]
        exact Or.inr ⟨passMark, _, rfl, Or.inl rfl⟩
  · rw [if_neg h200]
    exact Or.inr ⟨failMark, _, rfl, Or.inr (Or.inr rfl)⟩

theorem test_skill_shape (n : String) (info : SkillInfo)
    (respond : List (String × PyVal) → HttpResult) :
    (test_skill n info respond).1 = n ∧
    ((test_skill n info respond).2.1 = passMark ∨
     (test_skill n info respond).2.1 = warnMark ∨
     (test_skill n info respond).2.1 = failMark ∨
     (test_skill n info respond).2.1 = errorMark ∨
     (test_skill n info respond).2.1 = timeoutMark) := by
  cases hr : respond (generate_test_params n info) with
  | raised e =>
    rw [test_skill_raised n info respond e hr]
    by_cases ht : isTimeout e = true
    · rw [if_pos ht]
      exact ⟨rfl, Or.inr (Or.inr (Or.inr (Or.inr rfl)))⟩
    · rw [if_neg ht]
      exact ⟨rfl, Or.inr (Or.inr (Or.inr (Or.inl rfl)))⟩
  | response st body =>
    rw [test_skill_response n info respond st body hr]
    cases body with
    | error e => exact ⟨rfl, Or.inr (Or.inr (Or.inr (Or.inl rfl)))⟩
    | ok data =>
      rcases classifyBody_cases n st data with ⟨msg, hcb⟩ | ⟨st2, msg, hcb, hst⟩
      · rw [show ((Except.ok data).bind (fun d => classifyBody n st d)) =
          classifyBody n st data from rfl, hcb]
        exact ⟨rfl, Or.inr (Or.inr (Or.inr (Or.inl rfl)))⟩
      · rw [show ((Except.ok data).bind (fun d => classifyBody n st d)) =
          classifyBody n st data from rfl, hcb]
        refine ⟨rfl, ?_⟩
        rcases hst with h | h | h
        · exact Or.inl h
        · exact Or.inr (Or.inl h)
        · exact Or.inr (Or.inr (Or.inl h))

/-- C8: the dispatch produces exactly one outcome per catalog entry, in
catalog positions and carrying the operation names; an operation whose
invocation raises a non-timeout exception gets the ERROR outcome with the
truncated exception text and nothing propagates; changing only one
operation's server behaviour leaves every other operation's outcome
unchanged; and every outcome carries one of the five verdicts. -/
theorem dispatcher_isolation (catalog : List (String × SkillInfo))
    (env env2 : String → List (String × PyVal) → HttpResult) (n0 : String)
    (hagree : ∀ m, m ≠ n0 → env m = env2 m) :
    (runSkills catalog env).length = catalog.length ∧
    (runSkills catalog env).map (fun r => r.1) = catalog.map (fun c => c.1) ∧
    (∀ c ∈ catalog, ∀ e, env c.1 (generate_test_params c.1 c.2) = HttpResult.raised e →
      isTimeout e = false →
      test_skill c.1 c.2 (env c.1) = (c.1, errorMark, PyVal.str ((reqExnMsg e).take 80))) ∧
    (∀ i (h1 : i < catalog.length) (h2 : i < (runSkills catalog env).length)
        (h3 : i < (runSkills catalog env2).length),
      (catalog.get ⟨i, h1⟩).1 ≠ n0 →
      (runSkills catalog env).get ⟨i, h2⟩ = (runSkills catalog env2).get ⟨i, h3⟩) ∧
    (∀ r ∈ runSkills catalog env,
      r.2.1 = passMark ∨ r.2.1 = warnMark ∨ r.2.1 = failMark ∨
      r.2.1 = errorMark ∨ r.2.1 = timeoutMark) := by
  refine ⟨by simp [runSkills], ?_, ?_, ?_, ?_⟩
  · rw [runSkills, List.map_map]
    exact List.map_congr_left (fun c _ => (test_skill_shape c.1 c.2 (env c.1)).1)
  · intro c hc e he ht
    rw [test_skill_raised c.1 c.2 (env c.1) e he, if_neg (by simp [ht])]
  · intro i h1 h2 h3 hne
    rw [List.get_eq_getElem] at hne
    simp only [runSkills, List.get_eq_getElem, List.getElem_map]
    rw [hagree _ hne]
  · intro r hr
    rw [runSkills] at hr
    rcases List.mem_map.mp hr with ⟨c, hc, rfl⟩
    exact (test_skill_shape c.1 c.2 (env c.1)).2

/-- C8 witness: a one-operation catalog whose invocation raises a plain
connection exception completes with the ERROR outcome. -/
theorem dispatcher_isolation_witness :
    test_skill "op1" ⟨[]⟩ (fun _ => HttpResult.raised (ReqExn.otherExn "refused")) =
      ("op1", errorMark, PyVal.str "refused") := by
  have h := (dispatcher_isolation [("op1", ⟨[]⟩)]
    (fun _ _ => HttpResult.raised (ReqExn.otherExn "refused"))
    (fun _ _ => HttpResult.raised (ReqExn.otherExn "refused")) "zz"
    (fun _ _ => rfl)).2.2.1
  exact h ("op1", ⟨[]⟩) (List.mem_cons_self _ _) (ReqExn.otherExn "refused") rfl rfl
